import Mathlib

/-!
Verification development for the Amplify Data API MCP server
(`src/unnamed/part_000`, the stdio entry point).

The embedding below mirrors the JavaScript source:

* the model-introspection document (`models`, `enums`) becomes typed
  descriptor structures (§3 of the design document suggests the closed
  tagged variant for field types);
* the external collaborators — `fetch`, `Auth.currentSession`,
  `Auth.signIn`, `Auth.currentUserInfo`, `JSON.parse` — become oracles:
  functions from a call counter to an `Except` outcome, carried in a
  `World` record and consumed via per-oracle counters;
* the mutable module state (`currentUser`, `idToken`, `storedUsername`,
  `storedPassword`) becomes an explicit `SessionState` threaded through a
  `Machine` record, which also accumulates a trace of observable events;
* the mutually recursive `executeGraphQLQuery` / `handleAuthRefresh`
  pair becomes a single fuel-indexed step function `run` over a `Phase`
  (one phase per syntactic block: the executor body, the refresh
  try-block, and the refresh catch-block), with named wrappers keeping
  the source names; `none` means the fuel ran out before the mutual
  recursion returned. The source's `return executeGraphQLQuery(...)`
  at lines 159 and 175 carries no `await`, so a rejection of the
  retried request is adopted by the async function's promise and is
  never intercepted by the enclosing catch blocks; the model therefore
  returns the retry's outcome — success or error — unchanged;
* a thrown `Error` becomes `Except.error` of a `JsErr` naming the
  distinct throw sites.
-/

set_option maxHeartbeats 1000000

namespace AmplifyMcp

/-! ## Descriptor document (model_introspection) -/

/-- Closed tagged variant for a field's `type` value: in the source a
field's `type` is either a bare scalar name, `{model: name}` or
`{enum: name}` (checked by truthiness of `field.type.model` /
`field.type.enum`). -/
inductive FieldType where
  | scalar (name : String)
  | modelRef (name : String)
  | enumRef (name : String)
deriving Repr, DecidableEq

/-- `field.association` metadata. -/
structure Association where
  connectionType : String
  associatedWith : Option (List String)
  targetNames : Option (List String)
deriving Repr, DecidableEq

/-- One field descriptor of a model. -/
structure FieldDescriptor where
  type : FieldType
  isRequired : Bool
  isArray : Bool
  isReadOnly : Bool
  association : Option Association
deriving Repr, DecidableEq

/-- One authorization rule inside an `auth` attribute. -/
structure AuthRule where
  provider : String
  allow : String
  operations : List String
deriving Repr, DecidableEq

/-- A model attribute (`attr.type` with `attr.properties.rules`). -/
structure ModelAttribute where
  type : String
  rules : List AuthRule
deriving Repr, DecidableEq

/-- A model descriptor: ordered field map plus attribute list. -/
structure ModelDescriptor where
  fields : List (String × FieldDescriptor)
  attributes : List ModelAttribute
deriving Repr, DecidableEq

/-- The `models` object of the outputs file, as an ordered map. -/
abbrev Models := List (String × ModelDescriptor)

/-- The `enums` object of the outputs file: name ↦ value list. -/
abbrev Enums := List (String × List String)

/-- `models[modelName]` lookup. -/
def lookupModel (models : Models) (modelName : String) : Option ModelDescriptor :=
  (models.find? (fun p => p.1 == modelName)).map (fun p => p.2)

/-! ## Small string helpers (JS `String.prototype.includes`) -/

/-- Character-list version of `startsWith`. -/
def charsStartWith : List Char → List Char → Bool
  | [], _ => true
  | _ :: _, [] => false
  | a :: as, b :: bs => a == b && charsStartWith as bs

/-- Character-list substring occurrence. -/
def charsHaveInfix (needle : List Char) : List Char → Bool
  | [] => charsStartWith needle []
  | b :: bs => charsStartWith needle (b :: bs) || charsHaveInfix needle bs

/-- JS `hay.includes(needle)`. -/
def strIncludes (hay needle : String) : Bool :=
  charsHaveInfix needle.toList hay.toList

/-! ## GraphQL responses and thrown errors -/

/-- A structured error inside a GraphQL response payload. -/
structure GqlError where
  errorType : Option String
  message : Option String
deriving Repr, DecidableEq

/-- A settled `fetch` response: HTTP status plus the parsed JSON body,
kept as the structured `errors` array (used for classification) and an
opaque rendering `body` (what `JSON.stringify(result, null, 2)` shows). -/
structure HttpResponse where
  status : Nat
  errors : List GqlError
  body : String
deriving Repr, DecidableEq

/-- JS `Response.ok`: status in the range 200–299. -/
def respOk (r : HttpResponse) : Bool :=
  200 ≤ r.status && r.status < 300

/-- The auth-error scan over `result.errors` (source lines 133–136):
`errorType === "UnauthorizedException"`, or a message containing
`"Authentication failed"` or `"token is expired"`. -/
def hasAuthError (errors : List GqlError) : Bool :=
  errors.any fun e =>
    e.errorType == some "UnauthorizedException"
      || (match e.message with
          | some msg =>
              strIncludes msg "Authentication failed"
                || strIncludes msg "token is expired"
          | none => false)

/-- The distinct `throw` sites of the executor and refresh code. -/
inductive JsErr where
  | httpError (status : Nat)
  | networkError (msg : String)
  | reloginFailed
  | noCredentials
  | authNotInitialized
deriving Repr, DecidableEq

/-- The `error.message` text a tool handler renders for each throw. -/
def errMessage : JsErr → String
  | JsErr.httpError status => "HTTP error! status: " ++ toString status
  | JsErr.networkError msg => msg
  | JsErr.reloginFailed => "Authentication expired and automatic re-login failed"
  | JsErr.noCredentials => "Authentication expired and no stored credentials for re-login"
  | JsErr.authNotInitialized => "Authentication system not initialized"

/-! ## Session state, configuration, oracles, machine -/

/-- The module-level mutable authentication state (source lines 100–104). -/
structure SessionState where
  currentUser : Option String
  idToken : Option String
  storedUsername : Option String
  storedPassword : Option String
deriving Repr, DecidableEq

/-- Startup configuration: whether Cognito was configured, and the
environment-supplied default credentials (source lines 12–13, 71–89). -/
structure Config where
  isAuthInitialized : Bool
  envUsername : Option String
  envPassword : Option String
deriving Repr, DecidableEq

/-- The opaque parsed-variables value handed to the executor. -/
abbrev Vars := String

/-- Oracles for the external collaborators, indexed by per-oracle call
counters: `fetchO` is `fetch` + `response.json()` (error = network
failure), `sessO` is `Auth.currentSession` returning a JWT id token,
`signInO` is `Auth.signIn` returning a user reference, `userInfoO` is
`Auth.currentUserInfo` rendered as text. -/
structure World where
  fetchO : Nat → Except String HttpResponse
  sessO : Nat → Except String String
  signInO : Nat → Except String String
  userInfoO : Nat → Except String String

/-- Observable events recorded while running, for stating how often the
code fetched, refreshed, consulted credentials, or signed in. -/
inductive Ev where
  | fetchCall (query : String) (vars : Vars) (token : Option String)
  | refreshEnter
  | renewAttempt
  | renewOk
  | renewFail
  | credsLookup
  | signInAttempt (user : String) (pass : String)
deriving Repr, DecidableEq

/-- A machine: session state, oracle world, call counters, event trace. -/
structure Machine where
  sess : SessionState
  world : World
  nFetch : Nat
  nSess : Nat
  nSignIn : Nat
  nUserInfo : Nat
  trace : List Ev

/-- `true` exactly on `Ev.fetchCall` events. -/
def isFetchEv : Ev → Bool
  | Ev.fetchCall _ _ _ => true
  | _ => false

/-- `true` exactly on `Ev.signInAttempt` events. -/
def isSignInEv : Ev → Bool
  | Ev.signInAttempt _ _ => true
  | _ => false

/-! ## The executor / refresh mutual recursion -/

/-- Which syntactic block of the source we are in: `exec` is the body of
`executeGraphQLQuery` (lines 106–146), `refresh` is the try-block of
`handleAuthRefresh` (lines 150–160 plus its else at 187–189), and
`fallback` is its catch-block (lines 161–185, the re-login path). -/
inductive Phase where
  | exec
  | refresh
  | fallback
deriving Repr, DecidableEq

/-- Fuel-indexed interpreter of the mutually recursive pair
`executeGraphQLQuery` / `handleAuthRefresh`. Each recursive transfer
between blocks consumes one unit of fuel; `none` means the fuel ran out
(the source has no bound of its own). The branches mirror the source
line by line; see the wrappers `executeGraphQLQuery` and
`handleAuthRefresh` below. -/
def run (cfg : Config) (query : String) (vars : Vars) :
    Nat → Phase → Machine → Option (Except JsErr HttpResponse × Machine)
  | 0, _, _ => none
  | fuel+1, Phase.exec, m =>
      -- lines 106–127: attach token, POST, then classify the response
      let fr := m.world.fetchO m.nFetch
      let m1 : Machine :=
        { m with nFetch := m.nFetch + 1,
                 trace := m.trace ++ [Ev.fetchCall query vars m.sess.idToken] }
      match fr with
      | Except.error msg =>
          -- fetch rejected: caught at line 142 and rethrown unchanged
          some (Except.error (JsErr.networkError msg), m1)
      | Except.ok r =>
          if r.status == 401 then
            -- line 124: 401 → handleAuthRefresh
            run cfg query vars fuel Phase.refresh m1
          else if !respOk r then
            -- line 128: other non-ok status → throw HTTP error
            some (Except.error (JsErr.httpError r.status), m1)
          else if hasAuthError r.errors then
            -- lines 133–138: auth error in the parsed payload → refresh
            run cfg query vars fuel Phase.refresh m1
          else
            -- line 140: return the parsed result
            some (Except.ok r, m1)
  | fuel+1, Phase.refresh, m =>
      if cfg.isAuthInitialized then
        -- lines 151–160: try to refresh the session (currentSession is
        -- called twice: once discarded, once for the token)
        let m1 : Machine := { m with trace := m.trace ++ [Ev.refreshEnter, Ev.renewAttempt] }
        let s1 := m1.world.sessO m1.nSess
        let m2 : Machine := { m1 with nSess := m1.nSess + 1 }
        match s1 with
        | Except.error _ =>
            run cfg query vars fuel Phase.fallback
              { m2 with trace := m2.trace ++ [Ev.renewFail] }
        | Except.ok _ =>
            let s2 := m2.world.sessO m2.nSess
            let m3 : Machine := { m2 with nSess := m2.nSess + 1 }
            match s2 with
            | Except.error _ =>
                run cfg query vars fuel Phase.fallback
                  { m3 with trace := m3.trace ++ [Ev.renewFail] }
            | Except.ok tok =>
                let m4 : Machine :=
                  { m3 with sess := { m3.sess with idToken := some tok },
                            trace := m3.trace ++ [Ev.renewOk] }
                -- line 159: `return executeGraphQLQuery(...)` with no
                -- `await`, so the retry's rejection is not intercepted
                -- by catch (refreshError): its outcome is returned to
                -- the caller unchanged
                run cfg query vars fuel Phase.exec m4
      else
        -- line 188
        some (Except.error JsErr.authNotInitialized, m)
  | fuel+1, Phase.fallback, m =>
      -- lines 161–185: catch (refreshError) — re-login with stored or
      -- environment credentials
      let m1 : Machine := { m with trace := m.trace ++ [Ev.credsLookup] }
      let loginUsername := m1.sess.storedUsername <|> cfg.envUsername
      let loginPassword := m1.sess.storedPassword <|> cfg.envPassword
      match loginUsername, loginPassword with
      | some u, some p =>
          let m2 : Machine := { m1 with trace := m1.trace ++ [Ev.signInAttempt u p] }
          let si := m2.world.signInO m2.nSignIn
          let m3 : Machine := { m2 with nSignIn := m2.nSignIn + 1 }
          match si with
          | Except.error _ =>
              -- line 179: re-login failed
              some (Except.error JsErr.reloginFailed, m3)
          | Except.ok usr =>
              let m4 : Machine := { m3 with sess := { m3.sess with currentUser := some usr } }
              let s := m4.world.sessO m4.nSess
              let m5 : Machine := { m4 with nSess := m4.nSess + 1 }
              match s with
              | Except.error _ =>
                  -- currentSession threw inside the same try → loginError
                  some (Except.error JsErr.reloginFailed, m5)
              | Except.ok tok =>
                  let m6 : Machine := { m5 with sess := { m5.sess with idToken := some tok } }
                  -- line 175: `return executeGraphQLQuery(...)` with no
                  -- `await`, so the retry's rejection is not intercepted
                  -- by catch (loginError): its outcome is returned
                  -- unchanged
                  run cfg query vars fuel Phase.exec m6
      | _, _ =>
          -- line 183: no usable credential pair
          some (Except.error JsErr.noCredentials, m1)

/-- Source `executeGraphQLQuery(query, variables)` (lines 106–146). -/
def executeGraphQLQuery (cfg : Config) (query : String) (vars : Vars)
    (fuel : Nat) (m : Machine) : Option (Except JsErr HttpResponse × Machine) :=
  run cfg query vars fuel Phase.exec m

/-- Source `handleAuthRefresh(query, variables)` (lines 148–190). -/
def handleAuthRefresh (cfg : Config) (query : String) (vars : Vars)
    (fuel : Nat) (m : Machine) : Option (Except JsErr HttpResponse × Machine) :=
  run cfg query vars fuel Phase.refresh m

/-! ## Selection-set generator (source lines 192–224) -/

/-- The per-field step of `generateGraphQLFields`: the body of the
`.map` callback (lines 199–221), returning `none` where the source
returns `null` (subsequently dropped by `.filter(Boolean)`). -/
def fieldEntry (depth : Nat) (fieldName : String) (field : FieldDescriptor) :
    Option String :=
  if field.isReadOnly then none
  else
    match field.type with
    | FieldType.scalar _ => some fieldName
    | FieldType.enumRef _ => some fieldName
    | FieldType.modelRef _ =>
        if depth ≥ 1 || field.isArray then none
        else some (fieldName ++ " \x7b id name \x7d")

/-- Source `generateGraphQLFields(modelName, depth = 0)`. -/
def generateGraphQLFields (models : Models) (modelName : String)
    (depth : Nat := 0) : String :=
  if depth > 1 then "id"
  else
    match lookupModel models modelName with
    | none => "id"
    | some model =>
        String.intercalate "\n"
          (model.fields.filterMap fun p => fieldEntry depth p.1 p.2)

/-! ## Tool handlers

Every handler yields `Except JsErr ToolResult`: an `Except.error` would
be an exception escaping the handler to the protocol layer, a
`ToolResult` is the single-text-content payload the source builds. -/

/-- The `{content: [{type: "text", text}]}` payload every tool returns. -/
structure ToolResult where
  text : String
deriving Repr, DecidableEq

/-- Tool `login` (source lines 226–268). -/
def loginTool (cfg : Config) (username password : String) (m : Machine) :
    Except JsErr ToolResult × Machine :=
  if !cfg.isAuthInitialized then
    (Except.ok ⟨"Error: Cognito authentication is not configured"⟩, m)
  else
    let si := m.world.signInO m.nSignIn
    let m1 : Machine := { m with nSignIn := m.nSignIn + 1,
                                 trace := m.trace ++ [Ev.signInAttempt username password] }
    match si with
    | Except.error e => (Except.ok ⟨"Login failed: " ++ e⟩, m1)
    | Except.ok usr =>
        let m2 : Machine := { m1 with sess := { m1.sess with currentUser := some usr } }
        let s := m2.world.sessO m2.nSess
        let m3 : Machine := { m2 with nSess := m2.nSess + 1 }
        match s with
        | Except.error e => (Except.ok ⟨"Login failed: " ++ e⟩, m3)
        | Except.ok tok =>
            let m4 : Machine :=
              { m3 with sess := { m3.sess with idToken := some tok,
                                               storedUsername := some username,
                                               storedPassword := some password } }
            (Except.ok ⟨"Successfully logged in as " ++ username⟩, m4)

/-- Tool `get-current-user` (source lines 270–303). -/
def getCurrentUserTool (m : Machine) : Except JsErr ToolResult × Machine :=
  match m.sess.currentUser with
  | none => (Except.ok ⟨"Not logged in. Use the login tool to authenticate first."⟩, m)
  | some _ =>
      let r := m.world.userInfoO m.nUserInfo
      let m1 : Machine := { m with nUserInfo := m.nUserInfo + 1 }
      match r with
      | Except.ok info => (Except.ok ⟨"Current User:\n" ++ info⟩, m1)
      | Except.error e => (Except.ok ⟨"Error getting user info: " ++ e⟩, m1)

/-- The per-field summary line of `list-models` (source lines 318–325). -/
def fieldSummaryLine (fieldName : String) (field : FieldDescriptor) : String :=
  let typeInfo :=
    match field.type with
    | FieldType.modelRef n => n ++ " (model)"
    | FieldType.enumRef n => n ++ " (enum)"
    | FieldType.scalar s => s
  "  - " ++ fieldName ++ ": " ++ typeInfo
    ++ (if field.isRequired then " (required)" else "")
    ++ (if field.isArray then " (array)" else "")

/-- Tool `list-models` (source lines 305–337). -/
def listModelsTool (models : Models) : Except JsErr ToolResult :=
  if models.isEmpty then
    Except.ok ⟨"No data models found in the Amplify outputs file"⟩
  else
    let modelDetailsArray := models.map fun p =>
      "Model: " ++ p.1 ++ "\nFields:\n"
        ++ String.intercalate "\n" (p.2.fields.map fun q => fieldSummaryLine q.1 q.2)
    Except.ok ⟨"Data Models:\n\n" ++ String.intercalate "\n\n" modelDetailsArray⟩

/-- Tool `list-enums` (source lines 339–364). -/
def listEnumsTool (enums : Enums) : Except JsErr ToolResult :=
  if enums.isEmpty then
    Except.ok ⟨"No enum types found in the Amplify outputs file"⟩
  else
    let enumDetailsArray := enums.map fun p =>
      "Enum: " ++ p.1 ++ "\nValues:\n"
        ++ String.intercalate "\n" (p.2.map fun v => "  - " ++ v)
    Except.ok ⟨"Enum Types:\n\n" ++ String.intercalate "\n\n" enumDetailsArray⟩

/-- The per-field detail block of `get-model-details`
(source lines 381–396). -/
def fieldDetailBlock (fieldName : String) (field : FieldDescriptor) : String :=
  let typeInfo :=
    match field.type with
    | FieldType.modelRef n => n ++ " (model)"
    | FieldType.enumRef n => n ++ " (enum)"
    | FieldType.scalar s => s
  let relationshipInfo :=
    match field.association with
    | none => ""
    | some assoc =>
        "\n    Association: " ++ assoc.connectionType
          ++ (match assoc.targetNames with
              | none => ""
              | some ns => "\n    Target fields: " ++ String.intercalate ", " ns)
  "  - " ++ fieldName ++ ":\n    Type: " ++ typeInfo
    ++ (if field.isRequired then "\n    Required: Yes" else "")
    ++ (if field.isArray then "\n    Array: Yes" else "")
    ++ relationshipInfo

/-- Tool `get-model-details` (source lines 366–413). -/
def getModelDetailsTool (models : Models) (modelName : String) :
    Except JsErr ToolResult :=
  match lookupModel models modelName with
  | none =>
      Except.ok ⟨"Model '" ++ modelName
        ++ "' not found. Use list-models to see available models."⟩
  | some model =>
      let fields := String.intercalate "\n\n"
        (model.fields.map fun p => fieldDetailBlock p.1 p.2)
      let authRules := String.intercalate "\n\n"
        ((model.attributes.filter fun attr => attr.type == "auth").flatMap fun attr =>
          attr.rules.map fun rule =>
            "  - Provider: " ++ rule.provider ++ "\n    Allow: " ++ rule.allow
              ++ "\n    Operations: " ++ String.intercalate ", " rule.operations)
      Except.ok ⟨"Model: " ++ modelName ++ "\n\nFields:\n" ++ fields
        ++ "\n\nAuthorization Rules:\n" ++ authRules⟩

/-- The relationship extraction of `get-relationships`
(source lines 481–492): fields carrying association metadata. -/
def relationshipsOf (model : ModelDescriptor) :
    List (String × FieldDescriptor × Association) :=
  model.fields.filterMap fun p =>
    match p.2.association with
    | none => none
    | some assoc => some (p.1, p.2, assoc)

/-- JS `list?.join(", ") || "N/A"` used for `associatedWith` and
`targetNames` (an empty join is falsy, so it also yields `"N/A"`). -/
def joinOrNA : Option (List String) → String
  | none => "N/A"
  | some l =>
      let s := String.intercalate ", " l
      if s == "" then "N/A" else s

/-- The rendered block for one relationship (source lines 503–507);
`rel.type` is `field.type.model`, which for a non-model field is
JavaScript `undefined` and renders as the text `"undefined"`. -/
def relationshipBlock (entry : String × FieldDescriptor × Association) : String :=
  "Field: " ++ entry.1
    ++ "\nType: " ++ (match entry.2.1.type with
                      | FieldType.modelRef n => n
                      | _ => "undefined")
    ++ "\nRelationship: " ++ entry.2.2.connectionType
    ++ "\nAssociated With: " ++ joinOrNA entry.2.2.associatedWith
    ++ "\nTarget Names: " ++ joinOrNA entry.2.2.targetNames

/-- Tool `get-relationships` (source lines 463–516). -/
def getRelationshipsTool (models : Models) (modelName : String) :
    Except JsErr ToolResult :=
  match lookupModel models modelName with
  | none =>
      Except.ok ⟨"Model '" ++ modelName
        ++ "' not found. Use list-models to see available models."⟩
  | some model =>
      let relationships := relationshipsOf model
      if relationships.isEmpty then
        Except.ok ⟨"No relationships found for model: " ++ modelName⟩
      else
        Except.ok ⟨"Relationships for " ++ modelName ++ ":\n\n"
          ++ String.intercalate "\n\n" (relationships.map relationshipBlock)⟩

/-- Tool `run-graphql` (source lines 415–462). `parse` stands for the
`JSON.parse` builtin applied to the optional `variables` string; when
the string is absent the source uses the empty object. The outer
try-catch wraps both the parse dispatch and the executor call, so a
thrown executor error is rendered as text. -/
def runGraphqlTool (cfg : Config) (parse : String → Except String Vars)
    (query : String) (variablesStr : Option String) (fuel : Nat) (m : Machine) :
    Option (Except JsErr ToolResult × Machine) :=
  let pv : Except String Vars :=
    match variablesStr with
    | none => Except.ok "\x7b\x7d"
    | some v => parse v
  match pv with
  | Except.error e =>
      some (Except.ok ⟨"Invalid JSON variables: " ++ e⟩, m)
  | Except.ok vars =>
      match executeGraphQLQuery cfg query vars fuel m with
      | none => none
      | some (Except.ok r, m1) =>
          some (Except.ok ⟨"Query Result:\n\n" ++ r.body⟩, m1)
      | some (Except.error err, m1) =>
          some (Except.ok ⟨"Error executing GraphQL query: " ++ errMessage err⟩, m1)

/-! ## Spec-side definitions for refinement comparison -/

/-- Classifier written from the specification's words (§4.3): a
response is an authentication failure exactly when the HTTP status is
unauthorized (401) or the payload contains a structured
authentication-failure error — with no restriction to success
statuses. Compared against the classification the executor actually
performs. -/
def specAuthFailure (r : HttpResponse) : Bool :=
  r.status == 401 || hasAuthError r.errors

/-! ## Event-count helpers -/

/-- `true` exactly on `Ev.refreshEnter`. -/
def isRefreshEv : Ev → Bool
  | Ev.refreshEnter => true
  | _ => false

/-- `true` exactly on `Ev.renewOk`. -/
def isRenewOkEv : Ev → Bool
  | Ev.renewOk => true
  | _ => false

/-- `true` exactly on `Ev.renewFail`. -/
def isRenewFailEv : Ev → Bool
  | Ev.renewFail => true
  | _ => false

/-- `true` exactly on `Ev.credsLookup`. -/
def isCredsEv : Ev → Bool
  | Ev.credsLookup => true
  | _ => false

/-- Slack for the credential-licensing invariant: a run started inside
the catch-block performs one credential lookup that is not licensed by
a renewal failure of its own. -/
def phaseSlack : Phase → Nat
  | Phase.fallback => 1
  | _ => 0

/-! ## Concrete fixtures used by the counterexamples and witnesses -/

/-- An empty session: fresh start, nothing stored. -/
def noSess : SessionState := ⟨none, none, none, none⟩

/-- Cognito configured, no environment credentials. -/
def cfgAuth : Config := ⟨true, none, none⟩

/-- A plain success response. -/
def resp200 : HttpResponse := ⟨200, [], "ok-body"⟩

/-- A 401 response. -/
def resp401 : HttpResponse := ⟨401, [], "unauthorized"⟩

/-- A 500 response. -/
def resp500 : HttpResponse := ⟨500, [], "server error"⟩

/-- A 403 response whose payload carries the unauthorized exception
class. -/
def resp403auth : HttpResponse :=
  ⟨403, [⟨some "UnauthorizedException", some "Not authorized"⟩], "denied"⟩

/-- An oracle for collaborators a scenario never reaches. -/
def oracleFail : Nat → Except String String := fun _ => Except.error "unused"

/-- A fresh machine over a given session and world. -/
def mkMachine (sess : SessionState) (w : World) : Machine :=
  ⟨sess, w, 0, 0, 0, 0, []⟩

/-- C1 world: the first two requests draw 401, the third succeeds;
session renewal always succeeds with a distinguishable token. -/
def c1world : World :=
  ⟨fun n => if n < 2 then Except.ok resp401 else Except.ok resp200,
   fun n => Except.ok ("t" ++ toString n),
   oracleFail, oracleFail⟩

/-- C1 machine: fresh session over `c1world`. -/
def c1m : Machine := mkMachine noSess c1world

/-- The C1 run: `executeGraphQLQuery` on the double-401 world. -/
def c1run : Option (Except JsErr HttpResponse × Machine) :=
  executeGraphQLQuery cfgAuth "q" "v" 20 c1m

/-- C2 world: session renewal always succeeds with distinguishable
tokens; the requests draw 401, then 500, then 200. -/
def c2world : World :=
  ⟨fun n => if n == 0 then Except.ok resp401
            else if n == 1 then Except.ok resp500
            else Except.ok resp200,
   fun n => Except.ok ("s" ++ toString n),
   fun _ => Except.ok "relogged-user",
   oracleFail⟩

/-- C2 machine: a session with a token and cached login credentials. -/
def c2m : Machine :=
  mkMachine ⟨some "u0", some "old-token", some "alice", some "pw"⟩ c2world

/-- The machine a refresh of `c2m` ends in: renewal succeeded twice,
the retried requests drew 401 then 500, and the 500 rejection
propagated — no credential lookup, no sign-in. -/
def c2refreshAfter : Machine :=
  { c2m with sess := ⟨some "u0", some "s3", some "alice", some "pw"⟩,
             nFetch := 2, nSess := 4,
             trace := [Ev.refreshEnter, Ev.renewAttempt, Ev.renewOk,
               Ev.fetchCall "q" "v" (some "s1"),
               Ev.refreshEnter, Ev.renewAttempt, Ev.renewOk,
               Ev.fetchCall "q" "v" (some "s3")] }

/-- C3 world: the one request draws the 403-with-auth-payload
response. -/
def c3world : World :=
  ⟨fun _ => Except.ok resp403auth, oracleFail, oracleFail, oracleFail⟩

/-- C3 machine. -/
def c3m : Machine := mkMachine noSess c3world

/-- The C3 run. -/
def c3run : Option (Except JsErr HttpResponse × Machine) :=
  executeGraphQLQuery cfgAuth "q" "v" 5 c3m

/-- C4 world: request draws 401, renewal fails, re-login rejected. -/
def c4world : World :=
  ⟨fun _ => Except.ok resp401,
   fun _ => Except.error "session expired",
   fun _ => Except.error "Incorrect username or password",
   oracleFail⟩

/-- C4 machine: token present, credentials cached. -/
def c4m : Machine :=
  mkMachine ⟨some "u0", some "old-token", some "alice", some "pw"⟩ c4world

/-- The C4 run. -/
def c4run : Option (Except JsErr HttpResponse × Machine) :=
  executeGraphQLQuery cfgAuth "q" "v" 10 c4m

/-- C5 models: model `A` has a writable scalar `id` and an
array-valued model reference `tags` pointing at `Tag`. -/
def c5models : Models :=
  [("A", ⟨[("id", ⟨FieldType.scalar "ID", true, false, false, none⟩),
           ("tags", ⟨FieldType.modelRef "Tag", false, true, false, none⟩)],
          []⟩),
   ("Tag", ⟨[("id", ⟨FieldType.scalar "ID", true, false, false, none⟩)], []⟩)]

/-- The Story model of the spec's example scenario: `character` is a
singular model reference at `Character` carrying association
metadata. -/
def storyModel : ModelDescriptor :=
  ⟨[("id", ⟨FieldType.scalar "ID", true, false, false, none⟩),
    ("title", ⟨FieldType.scalar "String", true, false, false, none⟩),
    ("character", ⟨FieldType.modelRef "Character", false, false, false,
        some ⟨"BELONGS_TO", none, some ["storyCharacterId"]⟩⟩)],
   []⟩

/-- The Character model of the spec's example scenario. -/
def characterModel : ModelDescriptor :=
  ⟨[("id", ⟨FieldType.scalar "ID", true, false, false, none⟩),
    ("name", ⟨FieldType.scalar "String", true, false, false, none⟩)],
   []⟩

/-- The two-model example descriptor set. -/
def exampleModels : Models :=
  [("Story", storyModel), ("Character", characterModel)]

/-- A world whose sign-in is rejected (fetch never reached). -/
def c10failWorld : World :=
  ⟨fun _ => Except.error "unreached",
   oracleFail,
   fun _ => Except.error "Incorrect username or password",
   oracleFail⟩

/-- Machine over `c10failWorld` with an empty session. -/
def c10failM : Machine := mkMachine noSess c10failWorld

/-- A world whose sign-in and session extraction both succeed. -/
def c10okWorld : World :=
  ⟨fun _ => Except.ok resp200,
   fun _ => Except.ok "fresh-token",
   fun _ => Except.ok "user-ref",
   fun _ => Except.ok "info"⟩

/-- Machine over `c10okWorld` with an empty session. -/
def c10okM : Machine := mkMachine noSess c10okWorld

/-- A parse oracle that accepts everything (standing for `JSON.parse`
on valid input). -/
def parse0c7 : String → Except String Vars := fun s => Except.ok s

/-- C2 machine without credentials: a token is present (now expired)
but no credentials were ever cached, over the failing `c4world`. -/
def c2bM : Machine := mkMachine ⟨none, some "old-token", none, none⟩ c4world

/-- The result of the concrete `run-graphql` call used by the C7
witness. -/
def res0c7 : Except JsErr ToolResult :=
  Except.ok ⟨"Query Result:\n\nok-body"⟩

/-- The machine after that concrete `run-graphql` call. -/
def m0c7 : Machine :=
  { c10okM with nFetch := 1, trace := [Ev.fetchCall "query" "\x7b\x7d" none] }

/-! # Theorems -/

/-- Claim C5, counterexample: model `A` has a writable array-valued
model-reference field `tags`, yet `generateGraphQLFields` emits no
`tags \x7b id \x7d` projection for it — the generated selection set is
just `id`, containing no occurrence of `tags` at all, so
array/collection-valued model references are omitted rather than
projected to `\x7b id \x7d`. -/
theorem generateGraphQLFields_array_ref_skipped :
    generateGraphQLFields c5models "A" 0 = "id"
      ∧ strIncludes (generateGraphQLFields c5models "A" 0) "tags" = false := by
  decide

/-- Claim C5 (amended): `generateGraphQLFields` includes writable
scalar and enum fields unconditionally, omits array/collection-valued
model-reference fields entirely, emits a `\x7b id name \x7d` projection
for writable singular model references at depth 0, omits model
references at any depth ≥ 1, substitutes a bare `id` once depth exceeds
1, and never includes read-only fields; generation performs no
recursion over the model graph (at depth ≤ 1 it is a single pass over
the model's own field list), so it terminates on self-referential or
cyclic model graphs and generated nesting never exceeds two levels. -/
theorem generateGraphQLFields_spec (models : Models) (modelName : String)
    (depth : Nat) (fieldName : String) (field : FieldDescriptor) :
    (field.isReadOnly = true → fieldEntry depth fieldName field = none)
    ∧ (∀ n, field.isReadOnly = false → field.type = FieldType.scalar n →
        fieldEntry depth fieldName field = some fieldName)
    ∧ (∀ n, field.isReadOnly = false → field.type = FieldType.enumRef n →
        fieldEntry depth fieldName field = some fieldName)
    ∧ (∀ n, field.type = FieldType.modelRef n → field.isArray = true →
        fieldEntry depth fieldName field = none)
    ∧ (∀ n, field.isReadOnly = false → field.type = FieldType.modelRef n →
        field.isArray = false →
        fieldEntry 0 fieldName field = some (fieldName ++ " \x7b id name \x7d"))
    ∧ (∀ n, 1 ≤ depth → field.type = FieldType.modelRef n →
        fieldEntry depth fieldName field = none)
    ∧ (1 < depth → generateGraphQLFields models modelName depth = "id")
    ∧ (∀ model, lookupModel models modelName = some model → depth ≤ 1 →
        generateGraphQLFields models modelName depth
          = String.intercalate "\n"
              (model.fields.filterMap fun p => fieldEntry depth p.1 p.2)) := by
  refine ⟨?_, ?_, ?_, ?_, ?_, ?_, ?_, ?_⟩
  · intro h; simp [fieldEntry, h]
  · intro n h ht; simp [fieldEntry, h, ht]
  · intro n h ht; simp [fieldEntry, h, ht]
  · intro n ht ha
    cases hro : field.isReadOnly <;> simp [fieldEntry, hro, ht, ha]
  · intro n h ht ha; simp [fieldEntry, h, ht, ha]
  · intro n hd ht
    cases hro : field.isReadOnly
    · simp [fieldEntry, hro, ht]
      omega
    · simp [fieldEntry, hro]
  · intro h; simp [generateGraphQLFields, h]
  · intro model hm hd
    have hgt : ¬ depth > 1 := by omega
    simp [generateGraphQLFields, hgt, hm]

/-- Claim C5 witness: the amended claim instantiated on the concrete
`c5models` descriptor set. -/
theorem generateGraphQLFields_spec_witness :
    fieldEntry 0 "tags" ⟨FieldType.modelRef "Tag", false, true, false, none⟩ = none
      ∧ fieldEntry 0 "id" ⟨FieldType.scalar "ID", true, false, false, none⟩ = some "id"
      ∧ generateGraphQLFields c5models "A" 2 = "id" := by
  refine ⟨?_, ?_, ?_⟩
  · exact (generateGraphQLFields_spec c5models "A" 0 "tags"
      ⟨FieldType.modelRef "Tag", false, true, false, none⟩).2.2.2.1 "Tag" rfl rfl
  · exact (generateGraphQLFields_spec c5models "A" 0 "id"
      ⟨FieldType.scalar "ID", true, false, false, none⟩).2.1 "ID" rfl rfl
  · exact (generateGraphQLFields_spec c5models "A" 2 "id"
      ⟨FieldType.scalar "ID", true, false, false, none⟩).2.2.2.2.2.2.1 (by omega)

/-- Claim C6: on the two-model example descriptor set, the
relationship extraction for `Story` yields exactly one entry, for field
`character` pointing at model `Character`, and the rendered tool
payloads are the one-entry text for `Story` and the explicit
no-relationships message (not an error) for `Character`. -/
theorem getRelationships_example :
    (relationshipsOf storyModel).map (fun e => (e.1, e.2.1.type))
        = [("character", FieldType.modelRef "Character")]
      ∧ getRelationshipsTool exampleModels "Story"
          = Except.ok ⟨"Relationships for Story:\n\nField: character\nType: Character\nRelationship: BELONGS_TO\nAssociated With: N/A\nTarget Names: storyCharacterId"⟩
      ∧ getRelationshipsTool exampleModels "Character"
          = Except.ok ⟨"No relationships found for model: Character"⟩ :=
  ⟨by decide, rfl, rfl⟩

/-- Claim C8: when the variables string fails to parse, `run-graphql`
returns the invalid-JSON-variables message and the machine is returned
untouched — no fetch counter advances, no event is recorded, so
`executeGraphQLQuery` was never invoked; parsing happens strictly
before any upstream request. -/
theorem runGraphql_invalid_json (cfg : Config)
    (parse : String → Except String Vars) (query v : String) (fuel : Nat)
    (m : Machine) (e : String) (h : parse v = Except.error e) :
    runGraphqlTool cfg parse query (some v) fuel m
      = some (Except.ok ⟨"Invalid JSON variables: " ++ e⟩, m) := by
  simp [runGraphqlTool, h]

/-- Claim C8 witness: a concrete parse failure on `"\x7bnot valid json"`
with a world whose request would succeed — the result is the
invalid-JSON message on the unchanged machine. -/
theorem runGraphql_invalid_json_witness :
    runGraphqlTool cfgAuth (fun _ => Except.error "Unexpected token")
        "query \x7b listStories \x7d" (some "\x7bnot valid json") 5 c1m
      = some (Except.ok ⟨"Invalid JSON variables: Unexpected token"⟩, c1m) :=
  runGraphql_invalid_json cfgAuth (fun _ => Except.error "Unexpected token")
    "query \x7b listStories \x7d" "\x7bnot valid json" 5 c1m "Unexpected token" rfl

/-- Claim C9: for a model name absent from the descriptor set,
`generateGraphQLFields` returns `"id"` at every depth; it is a total
function over arbitrary model-name inputs. -/
theorem generateGraphQLFields_unknown_model (models : Models)
    (modelName : String) (depth : Nat)
    (h : lookupModel models modelName = none) :
    generateGraphQLFields models modelName depth = "id" := by
  by_cases hd : depth > 1 <;> simp [generateGraphQLFields, hd, h]

/-- Claim C9 witness: the empty descriptor set at a concrete name. -/
theorem generateGraphQLFields_unknown_model_witness :
    generateGraphQLFields [] "Story" 0 = "id" :=
  generateGraphQLFields_unknown_model [] "Story" 0 rfl

/-- Claim C3, counterexample: the response with status 403 whose
payload carries the unauthorized exception class is an authentication
failure according to the specification's classifier, yet the executor
throws `httpError 403` for it — zero refresh invocations, one fetch,
no retry. -/
theorem executeGraphQLQuery_classifier_counterexample :
    specAuthFailure resp403auth = true
      ∧ (c3run.map fun pr =>
            (pr.1, pr.2.trace.countP isRefreshEv, pr.2.trace.countP isFetchEv))
          = some (Except.error (JsErr.httpError 403), 0, 1) :=
  ⟨rfl, rfl⟩

/-- Claim C3 (amended): the executor treats a response as an
authentication failure exactly when the status is 401 or the status is
a success status and the parsed payload carries a structured
authentication-failure error (the payload is only inspected on success
statuses); every non-success status other than 401 — even one whose
payload carries an authentication-failure error — makes the call fail
at once with `httpError` carrying the status, with no refresh and no
retry. -/
theorem executeGraphQLQuery_classification (cfg : Config) (q : String)
    (v : Vars) (fuel : Nat) (m : Machine) (r : HttpResponse)
    (hf : m.world.fetchO m.nFetch = Except.ok r) :
    (r.status = 401 ∨ (respOk r = true ∧ hasAuthError r.errors = true) →
        executeGraphQLQuery cfg q v (fuel+1) m
          = handleAuthRefresh cfg q v fuel
              { m with nFetch := m.nFetch + 1,
                       trace := m.trace ++ [Ev.fetchCall q v m.sess.idToken] })
    ∧ (r.status ≠ 401 → respOk r = false →
        executeGraphQLQuery cfg q v (fuel+1) m
          = some (Except.error (JsErr.httpError r.status),
              { m with nFetch := m.nFetch + 1,
                       trace := m.trace ++ [Ev.fetchCall q v m.sess.idToken] }))
    ∧ (respOk r = true → hasAuthError r.errors = false →
        executeGraphQLQuery cfg q v (fuel+1) m
          = some (Except.ok r,
              { m with nFetch := m.nFetch + 1,
                       trace := m.trace ++ [Ev.fetchCall q v m.sess.idToken] })) := by
  refine ⟨?_, ?_, ?_⟩
  · rintro (h401 | ⟨hok, herr⟩)
    · simp only [executeGraphQLQuery, run, hf]
      simp [h401, handleAuthRefresh]
    · have hne : r.status ≠ 401 := by
        simp only [respOk, Bool.and_eq_true, decide_eq_true_eq] at hok
        omega
      simp only [executeGraphQLQuery, run, hf]
      simp [hne, hok, herr, handleAuthRefresh]
  · intro hne hok
    simp only [executeGraphQLQuery, run, hf]
    simp [hne, hok]
  · intro hok herr
    have hne : r.status ≠ 401 := by
      simp only [respOk, Bool.and_eq_true, decide_eq_true_eq] at hok
      omega
    simp only [executeGraphQLQuery, run, hf]
    simp [hne, hok, herr]

/-- Claim C3 witness: the amended behaviour at the concrete 403
response — immediate `httpError 403` on the machine that performed a
single fetch. -/
theorem executeGraphQLQuery_classification_witness :
    executeGraphQLQuery cfgAuth "q" "v" 5 c3m
      = some (Except.error (JsErr.httpError 403),
          { c3m with nFetch := 1,
                     trace := [Ev.fetchCall "q" "v" none] }) :=
  (executeGraphQLQuery_classification cfgAuth "q" "v" 4 c3m resp403auth rfl).2.1
    (by decide) rfl

/-- Claim C10: if the sign-in step of the `login` tool fails, the tool
returns the login-failed message and the session state — identity,
token and both stored credential fields — is exactly as before the
call; and the stored credential fields change only on runs where both
sign-in and token extraction succeeded (and then the tool reports
success). -/
theorem loginTool_failure_leaves_state (cfg : Config) (u p : String)
    (m : Machine) :
    (∀ e, cfg.isAuthInitialized = true →
        m.world.signInO m.nSignIn = Except.error e →
        (loginTool cfg u p m).1 = Except.ok ⟨"Login failed: " ++ e⟩
          ∧ (loginTool cfg u p m).2.sess = m.sess)
    ∧ ((loginTool cfg u p m).2.sess.storedUsername ≠ m.sess.storedUsername
          ∨ (loginTool cfg u p m).2.sess.storedPassword ≠ m.sess.storedPassword →
        ∃ usr tok, m.world.signInO m.nSignIn = Except.ok usr
          ∧ m.world.sessO m.nSess = Except.ok tok
          ∧ (loginTool cfg u p m).1
              = Except.ok ⟨"Successfully logged in as " ++ u⟩) := by
  constructor
  · intro e hinit herr
    simp [loginTool, hinit, herr]
  · intro hchanged
    cases hinit : cfg.isAuthInitialized with
    | false =>
        exfalso
        simp [loginTool, hinit] at hchanged
    | true =>
        cases hsi : m.world.signInO m.nSignIn with
        | error e =>
            exfalso
            simp [loginTool, hinit, hsi] at hchanged
        | ok usr =>
            cases hs : m.world.sessO m.nSess with
            | error e =>
                exfalso
                simp [loginTool, hinit, hsi, hs] at hchanged
            | ok tok =>
                exact ⟨usr, tok, rfl, rfl, by simp [loginTool, hinit, hsi, hs]⟩

/-- Claim C10 witness: a rejected sign-in leaves the fresh session
untouched, and a successful login (which does store credentials)
indeed had both sign-in and token extraction succeed. -/
theorem loginTool_failure_leaves_state_witness :
    ((loginTool cfgAuth "bob" "pw" c10failM).1
        = Except.ok ⟨"Login failed: Incorrect username or password"⟩
      ∧ (loginTool cfgAuth "bob" "pw" c10failM).2.sess = c10failM.sess)
    ∧ (∃ usr tok, c10okM.world.signInO c10okM.nSignIn = Except.ok usr
        ∧ c10okM.world.sessO c10okM.nSess = Except.ok tok
        ∧ (loginTool cfgAuth "bob" "pw" c10okM).1
            = Except.ok ⟨"Successfully logged in as bob"⟩) :=
  ⟨(loginTool_failure_leaves_state cfgAuth "bob" "pw" c10failM).1
      "Incorrect username or password" rfl rfl,
   (loginTool_failure_leaves_state cfgAuth "bob" "pw" c10okM).2
      (Or.inl (by decide))⟩

/-- Claim C7: every tool-call operation — `login`, `get-current-user`,
`list-models`, `list-enums`, `get-model-details`, `get-relationships`
and `run-graphql` — returns a well-formed text result payload
(`Except.ok`) for every input and every collaborator outcome; no error
value escapes a handler boundary (for `run-graphql`, on every run that
returns within its fuel). -/
theorem tools_never_escape_errors (cfg : Config) (models : Models)
    (enums : Enums) (parse : String → Except String Vars)
    (u p q mn : String) (vs : Option String) (fuel : Nat) (m : Machine) :
    (∃ t, (loginTool cfg u p m).1 = Except.ok t)
    ∧ (∃ t, (getCurrentUserTool m).1 = Except.ok t)
    ∧ (∃ t, listModelsTool models = Except.ok t)
    ∧ (∃ t, listEnumsTool enums = Except.ok t)
    ∧ (∃ t, getModelDetailsTool models mn = Except.ok t)
    ∧ (∃ t, getRelationshipsTool models mn = Except.ok t)
    ∧ (∀ res m', runGraphqlTool cfg parse q vs fuel m = some (res, m') →
        ∃ t, res = Except.ok t) := by
  refine ⟨?_, ?_, ?_, ?_, ?_, ?_, ?_⟩
  · unfold loginTool
    dsimp only
    split
    · exact ⟨_, rfl⟩
    · split
      · exact ⟨_, rfl⟩
      · split
        · exact ⟨_, rfl⟩
        · exact ⟨_, rfl⟩
  · unfold getCurrentUserTool
    dsimp only
    split
    · exact ⟨_, rfl⟩
    · split
      · exact ⟨_, rfl⟩
      · exact ⟨_, rfl⟩
  · unfold listModelsTool
    split
    · exact ⟨_, rfl⟩
    · exact ⟨_, rfl⟩
  · unfold listEnumsTool
    split
    · exact ⟨_, rfl⟩
    · exact ⟨_, rfl⟩
  · unfold getModelDetailsTool
    split
    · exact ⟨_, rfl⟩
    · exact ⟨_, rfl⟩
  · unfold getRelationshipsTool
    split
    · exact ⟨_, rfl⟩
    · dsimp only
      split
      · exact ⟨_, rfl⟩
      · exact ⟨_, rfl⟩
  · intro res m' h
    unfold runGraphqlTool at h
    dsimp only at h
    revert h
    split
    · intro h
      simp only [Option.some.injEq, Prod.mk.injEq] at h
      exact ⟨_, h.1.symm⟩
    · split
      · intro h
        simp at h
      · intro h
        simp only [Option.some.injEq, Prod.mk.injEq] at h
        exact ⟨_, h.1.symm⟩
      · intro h
        simp only [Option.some.injEq, Prod.mk.injEq] at h
        exact ⟨_, h.1.symm⟩

/-- Claim C7 witness: the boundary property instantiated on concrete
machines — a failing login and a `run-graphql` call whose upstream
request succeeds. -/
theorem tools_never_escape_errors_witness :
    (∃ t, (loginTool cfgAuth "bob" "pw" c10failM).1 = Except.ok t)
    ∧ (∃ t, (getCurrentUserTool c10failM).1 = Except.ok t)
    ∧ (∃ t, listModelsTool exampleModels = Except.ok t)
    ∧ (∃ t, res0c7 = Except.ok t) :=
  ⟨(tools_never_escape_errors cfgAuth exampleModels [] parse0c7 "bob" "pw"
      "query" "Story" none 3 c10failM).1,
   (tools_never_escape_errors cfgAuth exampleModels [] parse0c7 "bob" "pw"
      "query" "Story" none 3 c10failM).2.1,
   (tools_never_escape_errors cfgAuth exampleModels [] parse0c7 "bob" "pw"
      "query" "Story" none 3 c10failM).2.2.1,
   (tools_never_escape_errors cfgAuth exampleModels [] parse0c7 "bob" "pw"
      "query" "Story" none 3 c10okM).2.2.2.2.2.2 res0c7 m0c7 rfl⟩

/-- Helper: no phase of the executor/refresh recursion ever writes the
stored credential fields (only `login` does). -/
theorem run_stored_eq (cfg : Config) (q : String) (v : Vars) :
    ∀ fuel ph m r m', run cfg q v fuel ph m = some (r, m') →
      m'.sess.storedUsername = m.sess.storedUsername
        ∧ m'.sess.storedPassword = m.sess.storedPassword := by
  intro fuel
  induction fuel with
  | zero =>
      intro ph m r m' h
      simp [run] at h
  | succ n ih =>
      intro ph m r m' h
      cases ph with
      | exec =>
          simp only [run] at h
          split at h
          · simp only [Option.some.injEq, Prod.mk.injEq] at h
            obtain ⟨-, h2⟩ := h
            subst h2
            exact ⟨rfl, rfl⟩
          · split at h
            · have hh := ih _ _ _ _ h
              exact hh
            · split at h
              · simp only [Option.some.injEq, Prod.mk.injEq] at h
                obtain ⟨-, h2⟩ := h
                subst h2
                exact ⟨rfl, rfl⟩
              · split at h
                · have hh := ih _ _ _ _ h
                  exact hh
                · simp only [Option.some.injEq, Prod.mk.injEq] at h
                  obtain ⟨-, h2⟩ := h
                  subst h2
                  exact ⟨rfl, rfl⟩
      | refresh =>
          simp only [run] at h
          split at h
          · split at h
            · have hh := ih _ _ _ _ h
              exact hh
            · split at h
              · have hh := ih _ _ _ _ h
                exact hh
              · have hh := ih _ _ _ _ h
                exact hh
          · simp only [Option.some.injEq, Prod.mk.injEq] at h
            obtain ⟨-, h2⟩ := h
            subst h2
            exact ⟨rfl, rfl⟩
      | fallback =>
          simp only [run] at h
          split at h
          · split at h
            · simp only [Option.some.injEq, Prod.mk.injEq] at h
              obtain ⟨-, h2⟩ := h
              subst h2
              exact ⟨rfl, rfl⟩
            · split at h
              · simp only [Option.some.injEq, Prod.mk.injEq] at h
                obtain ⟨-, h2⟩ := h
                subst h2
                exact ⟨rfl, rfl⟩
              · have hh := ih _ _ _ _ h
                exact hh
          · simp only [Option.some.injEq, Prod.mk.injEq] at h
            obtain ⟨-, h2⟩ := h
            subst h2
            exact ⟨rfl, rfl⟩

/-- Helper: across every phase, credential lookups are licensed by
renewal failures — the fallback (catch) block is only ever entered
right after a failed renewal, except when a run is started in the
fallback phase itself (the `+1` slack below). -/
theorem run_creds_le_renewFail (cfg : Config) (q : String) (v : Vars) :
    ∀ fuel ph m r m', run cfg q v fuel ph m = some (r, m') →
      m'.trace.countP isCredsEv + m.trace.countP isRenewFailEv
        ≤ m'.trace.countP isRenewFailEv + m.trace.countP isCredsEv
          + phaseSlack ph := by
  intro fuel
  induction fuel with
  | zero =>
      intro ph m r m' h
      simp [run] at h
  | succ n ih =>
      intro ph m r m' h
      cases ph with
      | exec =>
          simp only [run] at h
          split at h
          · simp only [Option.some.injEq, Prod.mk.injEq] at h
            obtain ⟨-, h2⟩ := h
            subst h2
            simp [phaseSlack, List.countP_append, isCredsEv, isRenewFailEv]
            omega
          · split at h
            · have hh := ih _ _ _ _ h
              dsimp only at hh
              simp only [phaseSlack, List.countP_append] at hh ⊢
              simp [isCredsEv, isRenewFailEv] at hh
              omega
            · split at h
              · simp only [Option.some.injEq, Prod.mk.injEq] at h
                obtain ⟨-, h2⟩ := h
                subst h2
                simp [phaseSlack, List.countP_append, isCredsEv, isRenewFailEv]
                omega
              · split at h
                · have hh := ih _ _ _ _ h
                  dsimp only at hh
                  simp only [phaseSlack, List.countP_append] at hh ⊢
                  simp [isCredsEv, isRenewFailEv] at hh
                  omega
                · simp only [Option.some.injEq, Prod.mk.injEq] at h
                  obtain ⟨-, h2⟩ := h
                  subst h2
                  simp [phaseSlack, List.countP_append, isCredsEv, isRenewFailEv]
                  omega
      | refresh =>
          simp only [run] at h
          split at h
          · split at h
            · have hh := ih _ _ _ _ h
              dsimp only at hh
              simp only [phaseSlack, List.countP_append] at hh ⊢
              simp [isCredsEv, isRenewFailEv] at hh
              omega
            · split at h
              · have hh := ih _ _ _ _ h
                dsimp only at hh
                simp only [phaseSlack, List.countP_append] at hh ⊢
                simp [isCredsEv, isRenewFailEv] at hh
                omega
              · have hh := ih _ _ _ _ h
                dsimp only at hh
                simp only [phaseSlack, List.countP_append] at hh ⊢
                simp [isCredsEv, isRenewFailEv] at hh
                omega
          · simp only [Option.some.injEq, Prod.mk.injEq] at h
            obtain ⟨-, h2⟩ := h
            subst h2
            simp [phaseSlack]
            omega
      | fallback =>
          simp only [run] at h
          split at h
          · split at h
            · simp only [Option.some.injEq, Prod.mk.injEq] at h
              obtain ⟨-, h2⟩ := h
              subst h2
              simp [phaseSlack, List.countP_append, isCredsEv, isRenewFailEv]
              omega
            · split at h
              · simp only [Option.some.injEq, Prod.mk.injEq] at h
                obtain ⟨-, h2⟩ := h
                subst h2
                simp [phaseSlack, List.countP_append, isCredsEv, isRenewFailEv]
                omega
              · have hh := ih _ _ _ _ h
                dsimp only at hh
                simp only [phaseSlack, List.countP_append] at hh ⊢
                simp [isCredsEv, isRenewFailEv] at hh
                omega
          · simp only [Option.some.injEq, Prod.mk.injEq] at h
            obtain ⟨-, h2⟩ := h
            subst h2
            simp [phaseSlack, List.countP_append, isCredsEv, isRenewFailEv]
            omega

/-- Claim C2: for every call to `handleAuthRefresh`, session renewal
is attempted first; when renewal succeeds the call hands off to the
plain retry having consulted neither credential source and leaving the
stored credentials untouched — across any refresh run, credential
lookups never outnumber renewal failures, so only on renewal failure
does it fall back to re-authentication; the fall-back prefers cached
login credentials over environment defaults (the sign-in carries the
stored pair whatever the environment holds); with no complete
credential pair it fails with the no-stored-credentials
`AuthUnavailable` error without attempting sign-in; and no refresh run
ever modifies the stored credential fields. -/
theorem handleAuthRefresh_renewal_contract (cfg : Config) (q : String)
    (v : Vars) (fuel : Nat) (m : Machine) (u p t1 t2 e e' : String) :
    (cfg.isAuthInitialized = true →
        m.world.sessO m.nSess = Except.ok t1 →
        m.world.sessO (m.nSess + 1) = Except.ok t2 →
        handleAuthRefresh cfg q v (fuel+1) m
          = run cfg q v fuel Phase.exec
              { m with sess := { m.sess with idToken := some t2 },
                       nSess := m.nSess + 1 + 1,
                       trace := m.trace ++ [Ev.refreshEnter, Ev.renewAttempt]
                         ++ [Ev.renewOk] })
    ∧ (∀ fuel' r m', handleAuthRefresh cfg q v fuel' m = some (r, m') →
        m'.trace.countP isCredsEv + m.trace.countP isRenewFailEv
          ≤ m'.trace.countP isRenewFailEv + m.trace.countP isCredsEv)
    ∧ (cfg.isAuthInitialized = true →
        m.world.sessO m.nSess = Except.error e →
        m.sess.storedUsername = some u → m.sess.storedPassword = some p →
        m.world.signInO m.nSignIn = Except.error e' →
        ((handleAuthRefresh cfg q v (fuel+2) m).map fun pr => (pr.1, pr.2.trace))
          = some (Except.error JsErr.reloginFailed,
              m.trace ++ [Ev.refreshEnter, Ev.renewAttempt, Ev.renewFail,
                Ev.credsLookup, Ev.signInAttempt u p]))
    ∧ (cfg.isAuthInitialized = true →
        m.world.sessO m.nSess = Except.error e →
        m.sess.storedUsername = none → cfg.envUsername = none →
        handleAuthRefresh cfg q v (fuel+2) m
          = some (Except.error JsErr.noCredentials,
              { m with nSess := m.nSess + 1,
                       trace := m.trace ++ [Ev.refreshEnter, Ev.renewAttempt,
                         Ev.renewFail, Ev.credsLookup] }))
    ∧ (∀ fuel' r m', handleAuthRefresh cfg q v fuel' m = some (r, m') →
        m'.sess.storedUsername = m.sess.storedUsername
          ∧ m'.sess.storedPassword = m.sess.storedPassword) := by
  refine ⟨?_, ?_, ?_, ?_, ?_⟩
  · intro hinit hs1 hs2
    show run cfg q v (fuel+1) Phase.refresh m = _
    simp only [run, hinit, if_true, hs1, hs2]
  · intro fuel' r m' h
    have hh := run_creds_le_renewFail cfg q v fuel' Phase.refresh m r m' h
    simpa [phaseSlack] using hh
  · intro hinit hsess hu hp hsi
    show ((run cfg q v (fuel+1+1) Phase.refresh m).map _) = _
    simp only [run, hinit, if_true, hsess]
    simp only [hu, hp, Option.some_orElse, hsi]
    simp [List.append_assoc]
  · intro hinit hsess hu henv
    show run cfg q v (fuel+1+1) Phase.refresh m = _
    simp only [run, hinit, if_true, hsess]
    simp only [hu, henv, Option.none_orElse]
    simp [List.append_assoc]
  · intro fuel' r m' h
    exact run_stored_eq cfg q v fuel' Phase.refresh m r m' h

/-- Claim C2 witness: on the renewal-always-succeeds machine `c2m` the
refresh call hands off to the bare retry with no credential access;
the refresh run of `c2m` that sees 401 then 500 ends with zero
credential lookups (the 500 rejection propagates, renewal having
succeeded twice); with renewal failing, the rejected re-login carries
the cached pair and the credential-free machine gets the
no-credentials error. -/
theorem handleAuthRefresh_renewal_contract_witness :
    (handleAuthRefresh cfgAuth "q" "v" 2 c2m
        = run cfgAuth "q" "v" 1 Phase.exec
            { c2m with sess := ⟨some "u0", some "s1", some "alice", some "pw"⟩,
                       nSess := 2,
                       trace := [Ev.refreshEnter, Ev.renewAttempt, Ev.renewOk] })
    ∧ (c2refreshAfter.trace.countP isCredsEv + c2m.trace.countP isRenewFailEv
        ≤ c2refreshAfter.trace.countP isRenewFailEv + c2m.trace.countP isCredsEv)
    ∧ (((handleAuthRefresh cfgAuth "q" "v" 2 c4m).map fun pr => (pr.1, pr.2.trace))
        = some (Except.error JsErr.reloginFailed,
            [Ev.refreshEnter, Ev.renewAttempt, Ev.renewFail,
             Ev.credsLookup, Ev.signInAttempt "alice" "pw"]))
    ∧ (handleAuthRefresh cfgAuth "q" "v" 2 c2bM
        = some (Except.error JsErr.noCredentials,
            { c2bM with nSess := 1,
                        trace := [Ev.refreshEnter, Ev.renewAttempt,
                          Ev.renewFail, Ev.credsLookup] })) :=
  ⟨(handleAuthRefresh_renewal_contract cfgAuth "q" "v" 1 c2m "u" "p"
      "s0" "s1" "e" "e").1 rfl rfl rfl,
   (handleAuthRefresh_renewal_contract cfgAuth "q" "v" 0 c2m "u" "p"
      "t1" "t2" "e" "e").2.1 5 (Except.error (JsErr.httpError 500))
      c2refreshAfter rfl,
   (handleAuthRefresh_renewal_contract cfgAuth "q" "v" 0 c4m "alice" "pw"
      "t1" "t2" "session expired" "Incorrect username or password").2.2.1
      rfl rfl rfl rfl rfl,
   (handleAuthRefresh_renewal_contract cfgAuth "q" "v" 0 c2bM "u" "p"
      "t1" "t2" "session expired" "e").2.2.2.1 rfl rfl rfl rfl⟩

/-- Claim C4, counterexample: when renewal fails and re-login is
rejected, the refresh run fails with the re-login-failed error but the
whole session — including the token — is exactly as before: the token
still holds `"old-token"` and is not cleared. -/
theorem handleAuthRefresh_token_not_cleared :
    (c4run.map fun pr => (pr.1, pr.2.sess))
        = some (Except.error JsErr.reloginFailed, c4m.sess)
      ∧ c4m.sess.idToken = some "old-token" :=
  ⟨rfl, rfl⟩

/-- Claim C4 (amended): when refresh's re-authentication attempt fails
(renewal failed and the sign-in was rejected), the call fails with the
re-login-failed error (`AuthUnavailable`) and every session-state field
— identity, stored credentials and the token — is left unchanged; in
particular the token is not cleared. -/
theorem handleAuthRefresh_relogin_failure (cfg : Config) (q : String)
    (v : Vars) (fuel : Nat) (m : Machine) (u p e e' : String)
    (hinit : cfg.isAuthInitialized = true)
    (hsess : m.world.sessO m.nSess = Except.error e)
    (hu : m.sess.storedUsername = some u)
    (hp : m.sess.storedPassword = some p)
    (hsi : m.world.signInO m.nSignIn = Except.error e') :
    handleAuthRefresh cfg q v (fuel+2) m
      = some (Except.error JsErr.reloginFailed,
          { m with nSess := m.nSess + 1, nSignIn := m.nSignIn + 1,
                   trace := m.trace ++ [Ev.refreshEnter, Ev.renewAttempt,
                     Ev.renewFail, Ev.credsLookup, Ev.signInAttempt u p] }) := by
  show run cfg q v (fuel+1+1) Phase.refresh m = _
  simp only [run, hinit, if_true, hsess]
  simp only [hu, hp, Option.some_orElse, hsi]
  simp [List.append_assoc]

/-- Claim C4 witness: the concrete rejected re-login on `c4m` — note
the unchanged session inside the resulting machine. -/
theorem handleAuthRefresh_relogin_failure_witness :
    handleAuthRefresh cfgAuth "q" "v" 2 c4m
      = some (Except.error JsErr.reloginFailed,
          { c4m with nSess := 1, nSignIn := 1,
                     trace := [Ev.refreshEnter, Ev.renewAttempt, Ev.renewFail,
                       Ev.credsLookup, Ev.signInAttempt "alice" "pw"] }) :=
  handleAuthRefresh_relogin_failure cfgAuth "q" "v" 0 c4m "alice" "pw"
    "session expired" "Incorrect username or password" rfl rfl rfl rfl rfl

/-- Claim C1, counterexample: on the world whose first two responses
are 401 and whose session renewals all succeed, `executeGraphQLQuery`
invokes `handleAuthRefresh` twice and issues the request three times,
and the second consecutive authentication failure ends in the third
request's success — not in an `AuthUnavailable` error. So refresh is
not invoked at most once, the request is not re-issued at most once,
and a second authentication failure does not terminate the call. -/
theorem executeGraphQLQuery_retries_twice :
    (c1run.map fun pr =>
        (pr.1, pr.2.trace.countP isRefreshEv, pr.2.trace.countP isFetchEv))
      = some (Except.ok resp200, 2, 3) := rfl

/-- Helper: one executor step on a 401 response hands over to the
refresh phase. -/
theorem run_exec_step_401 (cfg : Config) (q : String) (v : Vars) (fuel : Nat)
    (m : Machine) (hf : m.world.fetchO m.nFetch = Except.ok resp401) :
    run cfg q v (fuel+1) Phase.exec m
      = run cfg q v fuel Phase.refresh
          { m with nFetch := m.nFetch + 1,
                   trace := m.trace ++ [Ev.fetchCall q v m.sess.idToken] } := by
  simp only [run, hf]
  norm_num [resp401]

/-- Helper: one refresh step with successful renewal hands off to the
retry carrying the renewed token; the retry's outcome — success or
rejection — is returned unchanged, since the source's un-awaited
`return` bypasses the catch. -/
theorem run_refresh_step_renewOk (cfg : Config) (q : String) (v : Vars)
    (fuel : Nat) (m : Machine) (t1 t2 : String)
    (hinit : cfg.isAuthInitialized = true)
    (hs1 : m.world.sessO m.nSess = Except.ok t1)
    (hs2 : m.world.sessO (m.nSess + 1) = Except.ok t2) :
    run cfg q v (fuel+1) Phase.refresh m
      = run cfg q v fuel Phase.exec
          { m with sess := { m.sess with idToken := some t2 },
                   nSess := m.nSess + 1 + 1,
                   trace := m.trace ++ [Ev.refreshEnter, Ev.renewAttempt]
                     ++ [Ev.renewOk] } := by
  simp only [run, hinit, if_true, hs1, hs2]

/-- Claim C1 (amended): the recursion between `executeGraphQLQuery`
and `handleAuthRefresh` is not bounded by any retry counter: for every
n, on a world answering the first n requests with 401 and the next one
with success, with session renewal always succeeding, the call invokes
refresh n times and issues n+1 requests before returning the success —
each consecutive authentication failure triggers another refresh and
retry instead of terminating with `AuthUnavailable`; the call
terminates only because the oracle eventually stops answering 401 (or
the fuel runs out). -/
theorem executeGraphQLQuery_unbounded_retry (cfg : Config) (q : String)
    (v : Vars) :
    ∀ (n : Nat) (m : Machine),
      cfg.isAuthInitialized = true →
      (∀ k, k < n → m.world.fetchO (m.nFetch + k) = Except.ok resp401) →
      m.world.fetchO (m.nFetch + n) = Except.ok resp200 →
      (∀ k, ∃ t, m.world.sessO k = Except.ok t) →
      ∃ m', executeGraphQLQuery cfg q v (2*n+1) m
          = some (Except.ok resp200, m')
        ∧ m'.trace.countP isRefreshEv = m.trace.countP isRefreshEv + n
        ∧ m'.trace.countP isFetchEv = m.trace.countP isFetchEv + (n+1) := by
  intro n
  induction n with
  | zero =>
      intro m hinit hf h200 hsess
      rw [Nat.add_zero] at h200
      refine ⟨{ m with nFetch := m.nFetch + 1,
                       trace := m.trace ++ [Ev.fetchCall q v m.sess.idToken] },
              ?_, ?_, ?_⟩
      · show run cfg q v (2*0+1) Phase.exec m = _
        simp only [run, h200]
        norm_num [resp200, respOk, hasAuthError]
      · simp [List.countP_append, isRefreshEv]
      · simp [List.countP_append, isFetchEv]
  | succ nn ih =>
      intro m hinit hf h200 hsess
      have hf0 := hf 0 (by omega)
      rw [Nat.add_zero] at hf0
      obtain ⟨t1, hs1⟩ := hsess m.nSess
      obtain ⟨t2, hs2⟩ := hsess (m.nSess + 1)
      -- the machine entering the recursive retry
      set m4 : Machine :=
        { m with sess := { m.sess with idToken := some t2 },
                 nFetch := m.nFetch + 1, nSess := m.nSess + 1 + 1,
                 trace := (m.trace ++ [Ev.fetchCall q v m.sess.idToken])
                   ++ [Ev.refreshEnter, Ev.renewAttempt] ++ [Ev.renewOk] }
        with hm4
      have hf4 : ∀ k, k < nn → m4.world.fetchO (m4.nFetch + k) = Except.ok resp401 := by
        intro k hk
        have := hf (k+1) (by omega)
        rw [hm4]
        show m.world.fetchO (m.nFetch + 1 + k) = Except.ok resp401
        rw [show m.nFetch + 1 + k = m.nFetch + (k+1) from by omega]
        exact this
      have h2004 : m4.world.fetchO (m4.nFetch + nn) = Except.ok resp200 := by
        rw [hm4]
        show m.world.fetchO (m.nFetch + 1 + nn) = Except.ok resp200
        rw [show m.nFetch + 1 + nn = m.nFetch + (nn+1) from by omega]
        exact h200
      obtain ⟨m', hrun, hcr, hcf⟩ := ih m4 hinit hf4 h2004 hsess
      refine ⟨m', ?_, ?_, ?_⟩
      · show run cfg q v (2*(nn+1)+1) Phase.exec m = _
        rw [show 2*(nn+1)+1 = ((2*nn+1)+1)+1 from by ring]
        rw [run_exec_step_401 cfg q v ((2*nn+1)+1) m hf0]
        have e2 := run_refresh_step_renewOk cfg q v (2*nn+1)
          { m with nFetch := m.nFetch + 1,
                   trace := m.trace ++ [Ev.fetchCall q v m.sess.idToken] }
          t1 t2 hinit hs1 hs2
        rw [e2]
        have hrunX : run cfg q v (2*nn+1) Phase.exec m4 = some (Except.ok resp200, m') := hrun
        rw [hm4] at hrunX
        exact hrunX
      · rw [hcr, hm4]
        simp only []
        rw [List.countP_append, List.countP_append, List.countP_append]
        simp [isRefreshEv]
        omega
      · rw [hcf, hm4]
        simp only []
        rw [List.countP_append, List.countP_append, List.countP_append]
        simp [isFetchEv]
        omega

/-- Claim C1 witness: the amended statement at n = 2 over the concrete
double-401 world. -/
theorem executeGraphQLQuery_unbounded_retry_witness :
    ∃ m', executeGraphQLQuery cfgAuth "q" "v" 5 c1m
        = some (Except.ok resp200, m')
      ∧ m'.trace.countP isRefreshEv = c1m.trace.countP isRefreshEv + 2
      ∧ m'.trace.countP isFetchEv = c1m.trace.countP isFetchEv + 3 :=
  executeGraphQLQuery_unbounded_retry cfgAuth "q" "v" 2 c1m rfl
    (by
      intro k hk
      interval_cases k
      · rfl
      · rfl)
    rfl
    (fun k => ⟨"t" ++ toString k, rfl⟩)

end AmplifyMcp
